import Mathlib

/-!
Shallow embedding of the MOT OpenCL host-side scheduling layer
(`mot/cl_environments.py` and `mot/lib/cl_processors.py`).

External OpenCL objects (platforms, devices, contexts, events, queues) are
modelled as first-order data: a device carries its capability attributes
(device type, double-precision support, and whether `cl.Context([device])`
succeeds), and the effect of enqueue-style calls is recorded in an explicit
operation trace threaded through the processor functions.
-/

namespace MOT

/-- `cl.device_type`: the OpenCL device-type constants used by the code
(`GPU`, `CPU`, and the `ALL` query mask that matches every device). -/
inductive CLDeviceType where
  | CPU
  | GPU
  | ACCELERATOR
  | ALL
deriving DecidableEq, Repr

/-- One OpenCL device, with the capability attributes the code queries:
`devType` models `device.get_info(cl.device_info.TYPE)`;
`supportsDouble` models the externally supplied `device_supports_double`
capability predicate; `contextConstructible` models whether
`cl.Context([device])` succeeds or raises `cl.RuntimeError`.
`id` models the distinct identity of the underlying driver object. -/
structure CLDevice where
  id : Nat
  devType : CLDeviceType
  supportsDouble : Bool
  contextConstructible : Bool
deriving DecidableEq, Repr

/-- One OpenCL platform with its device list (`platform.get_devices()`). -/
structure CLPlatform where
  id : Nat
  devices : List CLDevice
deriving DecidableEq, Repr

/-- Modelled from the spec: `device_supports_double` (imported by
`mot/cl_environments.py` from `mot/utils.py`, which is outside the given
sources) reports whether a device supports double-precision arithmetic;
it is modelled as the device's `supportsDouble` capability attribute. -/
def device_supports_double (device : CLDevice) : Bool :=
  device.supportsDouble

/-- `platform.get_devices(device_type=t)`: the platform's devices filtered by
the requested device type; the `ALL` mask matches every device. -/
def CLPlatform.get_devices (platform : CLPlatform) (device_type : CLDeviceType) :
    List CLDevice :=
  match device_type with
  | .ALL => platform.devices
  | t => platform.devices.filter (fun d => d.devType == t)

/-- `CLEnvironment` (mot/cl_environments.py): storage unit for an OpenCL
environment, holding a platform, a device and compile flags. The context
owned by the environment is created from the device alone, so it is not
modelled as separate data. -/
structure CLEnvironment where
  platform : CLPlatform
  device : CLDevice
  compile_flags : List String
deriving DecidableEq, Repr

/-- `CLEnvironment.__init__`: when no context is supplied it runs
`cl.Context([self._device])`, which may raise `cl.RuntimeError`; success is
modelled by the device's `contextConstructible` attribute, failure by
`none`. -/
def CLEnvironment.construct (platform : CLPlatform) (device : CLDevice)
    (compile_flags : List String) : Option CLEnvironment :=
  if device.contextConstructible then
    some { platform := platform, device := device, compile_flags := compile_flags }
  else
    none

/-- `cl.mem_flags` constants (values from the OpenCL headers). -/
def mem_READ_WRITE : Nat := 1
def mem_WRITE_ONLY : Nat := 2
def mem_READ_ONLY : Nat := 4
def mem_USE_HOST_PTR : Nat := 8
def mem_COPY_HOST_PTR : Nat := 32

/-- `CLEnvironment.is_gpu`: the device's type equals `cl.device_type.GPU`. -/
def CLEnvironment.is_gpu (env : CLEnvironment) : Bool :=
  env.device.devType == CLDeviceType.GPU

/-- `CLEnvironment.is_cpu`: the device's type equals `cl.device_type.CPU`. -/
def CLEnvironment.is_cpu (env : CLEnvironment) : Bool :=
  env.device.devType == CLDeviceType.CPU

/-- `CLEnvironment.supports_double`: `device_supports_double(self.device)`. -/
def CLEnvironment.supports_double (env : CLEnvironment) : Bool :=
  device_supports_double env.device

/-- `CLEnvironment.get_read_only_cl_mem_flags`. -/
def CLEnvironment.get_read_only_cl_mem_flags (env : CLEnvironment) : Nat :=
  if env.is_gpu then
    mem_READ_ONLY ||| mem_COPY_HOST_PTR
  else
    mem_READ_ONLY ||| mem_USE_HOST_PTR

/-- `CLEnvironment.get_read_write_cl_mem_flags`. -/
def CLEnvironment.get_read_write_cl_mem_flags (env : CLEnvironment) : Nat :=
  if env.is_gpu then
    mem_READ_WRITE ||| mem_COPY_HOST_PTR
  else
    mem_READ_WRITE ||| mem_USE_HOST_PTR

/-- `CLEnvironment.get_write_only_cl_mem_flags`. -/
def CLEnvironment.get_write_only_cl_mem_flags (env : CLEnvironment) : Nat :=
  if env.is_gpu then
    mem_WRITE_ONLY ||| mem_COPY_HOST_PTR
  else
    mem_WRITE_ONLY ||| mem_USE_HOST_PTR

/-- The distinct failures a discovery call can raise:
`noMatchingDevice` is `ValueError('No devices of the specified type ... found.')`,
`noSuitableDevice` is `ValueError('No suitable OpenCL device found.')`,
`indexError` is `cl.get_platforms()[0]` on an empty platform list. -/
inductive DiscoveryError where
  | noMatchingDevice
  | noSuitableDevice
  | indexError
deriving DecidableEq, Repr

/-- The scan loop of `CLEnvironmentFactory.single_device`: walk the candidate
devices in order; a device lacking double support is skipped, a device whose
context construction raises `cl.RuntimeError` is skipped (`except ... pass`),
the first eligible device yields a one-element environment list; if the loop
ends without a hit, `ValueError('No suitable OpenCL device found.')`. -/
def scanDevices (platform : CLPlatform) (compile_flags : List String) :
    List CLDevice → Except DiscoveryError (List CLEnvironment)
  | [] => Except.error DiscoveryError.noSuitableDevice
  | dev :: rest =>
    if device_supports_double dev then
      match CLEnvironment.construct platform dev compile_flags with
      | some env => Except.ok [env]
      | none => scanDevices platform compile_flags rest
    else
      scanDevices platform compile_flags rest

/-- `CLEnvironmentFactory.single_device` (the string-to-device-type
conversion convenience branch is outside this model: the device type is
taken directly). `all_platforms` models `cl.get_platforms()`. -/
def single_device (all_platforms : List CLPlatform) (cl_device_type : CLDeviceType)
    (platform : Option CLPlatform) (compile_flags : List String)
    (fallback_to_any_device_type : Bool) : Except DiscoveryError (List CLEnvironment) :=
  match (match platform with
         | some p => some p
         | none => all_platforms.head?) with
  | none => Except.error DiscoveryError.indexError
  | some platform =>
    let devices := platform.get_devices cl_device_type
    if devices.isEmpty then
      if fallback_to_any_device_type then
        scanDevices platform compile_flags platform.devices
      else
        Except.error DiscoveryError.noMatchingDevice
    else
      scanDevices platform compile_flags devices

/-- The platform-selection branch of `CLEnvironmentFactory.all_devices`:
all platforms when none is given, the one explicit platform otherwise. -/
def selectedPlatforms (all_platforms : List CLPlatform)
    (platform : Option CLPlatform) : List CLPlatform :=
  match platform with
  | none => all_platforms
  | some p => [p]

/-- `CLEnvironmentFactory.all_devices`: over every platform (or the one
explicit platform), take the devices (filtered by type when a type is
given), keep each double-capable device whose context construction
succeeds, skipping construction failures (`except ... pass`); the
accumulated `runtime_list` is returned, with no error path. -/
def all_devices (all_platforms : List CLPlatform) (cl_device_type : Option CLDeviceType)
    (platform : Option CLPlatform) (compile_flags : List String) : List CLEnvironment :=
  let platforms := selectedPlatforms all_platforms platform
  platforms.flatMap fun platform =>
    let devices := match cl_device_type with
      | some t => platform.get_devices t
      | none => platform.devices
    devices.filterMap fun device =>
      if device_supports_double device then
        CLEnvironment.construct platform device compile_flags
      else
        none

/-- An OpenCL event handle (`cl.Event`), modelled by a serial number. -/
abbrev Event := Nat

/-- A device-ready kernel launch input (buffer handle, scalar, or local-memory
descriptor), opaque at this layer. -/
abbrev KernelInput := Nat

/-- `Dict[CLEnvironment, cl.Event]`, insertion-ordered as a Python dict. -/
abbrev EventMap := List (CLEnvironment × Event)

/-- The optional `wait_for` argument of `Processor.process`. -/
abbrev WaitFor := Option EventMap

/-- One kernel enqueue (`self._kernel(queue, global, local, *inputs,
wait_for=...)`) with the queue's environment, the global and local work
sizes, the bound inputs, the device wait-list, and the returned
completion event. -/
structure Launch where
  env : CLEnvironment
  global_size : Nat
  local_size : Nat
  kernel_inputs : List KernelInput
  wait_for : List Event
  event : Event
deriving DecidableEq, Repr

/-- One observable host-to-driver operation. -/
inductive CLOp where
  | launch : Launch → CLOp
  | flushQueue : CLEnvironment → CLOp
  | finishQueue : CLEnvironment → CLOp
  | hostWait : Event → CLOp
deriving DecidableEq, Repr

/-- The driver state threaded through the processors: the trace of issued
operations and the next fresh event serial. -/
structure CLState where
  ops : List CLOp
  nextEvent : Event
deriving DecidableEq, Repr

/-- A compiled kernel (`pyopencl` kernel object), opaque except for the
`get_work_group_info(PREFERRED_WORK_GROUP_SIZE_MULTIPLE, device)` query the
code performs. -/
structure Kernel where
  get_work_group_info : CLDevice → Nat

/-- A `KernelData` value (mot/lib/utils.py, outside the given sources),
opaque at this layer exactly as the processors consume it:
`get_scalar_arg_dtypes()` yields the scalar-argument dtype signature, and
`get_kernel_inputs(cl_environment, workgroup_size, batch_range, is_blocking,
wait_for)` yields the device-ready launch inputs, each with an optional
data-transferred event. -/
structure KernelData where
  get_scalar_arg_dtypes : List String
  get_kernel_inputs : CLEnvironment → Nat → Nat × Nat → Bool → WaitFor →
    List (KernelInput × Option Event)

/-- `ProcessBatch._flatten_list`. -/
def flatten_list {α : Type} (l : List (List α)) : List α :=
  l.foldl (fun return_l e => return_l ++ e) []

/-- `ProcessBatch` (mot/lib/cl_processors.py): the per-device processor
holding the compiled kernel, the kernel data, the environment, the batch
range and the workgroup size. `scalar_arg_dtypes` records the argument
signature passed to `kernel.set_scalar_arg_dtypes` at construction. -/
structure ProcessBatch where
  kernel : Kernel
  kernel_data : List KernelData
  cl_environment : CLEnvironment
  batch_range : Nat × Nat
  workgroup_size : Nat
  scalar_arg_dtypes : List String

/-- `ProcessBatch.__init__`: stores its arguments and calls
`set_scalar_arg_dtypes` with the flattened per-data dtype signatures. -/
def ProcessBatch.construct (kernel : Kernel) (kernel_data : List KernelData)
    (cl_environment : CLEnvironment) (batch_range : Nat × Nat)
    (workgroup_size : Nat) : ProcessBatch :=
  { kernel := kernel
    kernel_data := kernel_data
    cl_environment := cl_environment
    batch_range := batch_range
    workgroup_size := workgroup_size
    scalar_arg_dtypes := flatten_list (kernel_data.map (fun d => d.get_scalar_arg_dtypes)) }

/-- `ProcessBatch.process`: gather the kernel inputs of every `KernelData`
for this environment, workgroup size and batch range (with
`is_blocking=False` and the externally supplied `wait_for` passed through),
collecting the non-`None` loading events; enqueue the kernel with global
size `(batch_end - batch_start) * workgroup_size`, local size
`workgroup_size`, and the loading events as device wait-list; host-wait on
the completion event only when `is_blocking`; return `{environment: event}`. -/
def ProcessBatch.process (pb : ProcessBatch) (st : CLState) (is_blocking : Bool)
    (wait_for : WaitFor) : CLState × EventMap :=
  let pairs := flatten_list (pb.kernel_data.map fun data =>
    data.get_kernel_inputs pb.cl_environment pb.workgroup_size pb.batch_range false wait_for)
  let kernel_inputs := pairs.map Prod.fst
  let loading_events := pairs.filterMap Prod.snd
  let nmr_instances := pb.batch_range.2 - pb.batch_range.1
  let event := st.nextEvent
  let launched : CLState :=
    { ops := st.ops ++ [CLOp.launch
        { env := pb.cl_environment
          global_size := nmr_instances * pb.workgroup_size
          local_size := pb.workgroup_size
          kernel_inputs := kernel_inputs
          wait_for := loading_events
          event := event }]
      nextEvent := st.nextEvent + 1 }
  let final : CLState :=
    if is_blocking then
      { launched with ops := launched.ops ++ [CLOp.hostWait event] }
    else
      launched
  (final, [(pb.cl_environment, event)])

/-- `ProcessBatch.flush`: `self._cl_environment.queue.flush()`. -/
def ProcessBatch.flush (pb : ProcessBatch) (st : CLState) : CLState :=
  { st with ops := st.ops ++ [CLOp.flushQueue pb.cl_environment] }

/-- `ProcessBatch.finish`: `self._cl_environment.queue.finish()`. -/
def ProcessBatch.finish (pb : ProcessBatch) (st : CLState) : CLState :=
  { st with ops := st.ops ++ [CLOp.finishQueue pb.cl_environment] }

/-- Python `dict` single-key assignment: overwrite in place when the key is
present, append otherwise. -/
def dictInsert (m : EventMap) (k : CLEnvironment) (v : Event) : EventMap :=
  if m.any (fun kv => kv.1 == k) then
    m.map (fun kv => if kv.1 == k then (kv.1, v) else kv)
  else
    m ++ [(k, v)]

/-- Python `dict.update`: fold the right-hand map's entries into the left. -/
def dictUpdate (m m2 : EventMap) : EventMap :=
  m2.foldl (fun acc kv => dictInsert acc kv.1 kv.2) m

/-- The errors `MultiDeviceProcessor.__init__` can raise:
`keyError` is `kernels[cl_environment]` on a missing environment,
`indexError` is `batches[ind]` when the load balancer returned too few
batches. -/
inductive ConstructionError where
  | keyError
  | indexError
deriving DecidableEq, Repr

/-- `mot.lib.load_balancers.LoadBalancer`, consumed only through
`get_division(cl_environments, nmr_instances)`. -/
structure LoadBalancer where
  get_division : List CLEnvironment → Nat → List (Nat × Nat)

/-- `MultiDeviceProcessor`: holds the constructed per-batch subprocessors
(plus the kernel data and environment list the constructor stores). -/
structure MultiDeviceProcessor where
  subprocessors : List ProcessBatch
  kernel_data : List KernelData
  cl_environments : List CLEnvironment

/-- The workgroup-size computation of `MultiDeviceProcessor.__init__`:
when `use_local_reduction`, a truthy (non-`None`, non-zero) `local_size`
is used, otherwise the kernel's preferred workgroup-size multiple for the
device (`get_work_group_info(PREFERRED_WORK_GROUP_SIZE_MULTIPLE, device)`);
without `use_local_reduction` the workgroup size is 1. -/
def chooseWorkgroupSize (use_local_reduction : Bool) (local_size : Option Nat)
    (kernel : Kernel) (device : CLDevice) : Nat :=
  if use_local_reduction then
    match local_size with
    | some (n + 1) => n + 1
    | _ => kernel.get_work_group_info device
  else 1

/-- The constructor loop of `MultiDeviceProcessor.__init__` over
`enumerate(cl_environments)`: look up `kernels[cl_environment]` (KeyError
when absent); compute the workgroup size; read `batches[ind]`
(IndexError when absent); construct a `ProcessBatch` only when
`batch_end - batch_start > 0`. -/
def constructLoop (kernels : CLEnvironment → Option Kernel)
    (kernel_data : List KernelData) (batches : List (Nat × Nat))
    (use_local_reduction : Bool) (local_size : Option Nat) :
    Nat → List CLEnvironment → Except ConstructionError (List ProcessBatch)
  | _, [] => Except.ok []
  | ind, cl_environment :: rest =>
    match kernels cl_environment with
    | none => Except.error ConstructionError.keyError
    | some kernel =>
      let workgroup_size :=
        chooseWorkgroupSize use_local_reduction local_size kernel cl_environment.device
      match batches[ind]? with
      | none => Except.error ConstructionError.indexError
      | some batch =>
        match constructLoop kernels kernel_data batches use_local_reduction local_size
            (ind + 1) rest with
        | Except.error e => Except.error e
        | Except.ok subs =>
          if batch.2 - batch.1 > 0 then
            Except.ok (ProcessBatch.construct kernel kernel_data cl_environment
              batch workgroup_size :: subs)
          else
            Except.ok subs

/-- `MultiDeviceProcessor.__init__`: obtain the batches from the load
balancer, then run the constructor loop over the environment list. -/
def MultiDeviceProcessor.construct (kernels : CLEnvironment → Option Kernel)
    (kernel_data : List KernelData) (cl_environments : List CLEnvironment)
    (load_balancer : LoadBalancer) (nmr_instances : Nat)
    (use_local_reduction : Bool) (local_size : Option Nat) :
    Except ConstructionError MultiDeviceProcessor :=
  let batches := load_balancer.get_division cl_environments nmr_instances
  match constructLoop kernels kernel_data batches use_local_reduction local_size
      0 cl_environments with
  | Except.error e => Except.error e
  | Except.ok subs =>
    Except.ok { subprocessors := subs
                kernel_data := kernel_data
                cl_environments := cl_environments }

/-- The loop body of `MultiDeviceProcessor.process`: for each worker,
`events.update(worker.process(wait_for=wait_for))` — note `is_blocking` is
left at its `False` default — then `worker.flush()`. -/
def processLoop (wait_for : WaitFor) :
    List ProcessBatch → CLState → EventMap → CLState × EventMap
  | [], st, events => (st, events)
  | worker :: rest, st, events =>
    let r := worker.process st false wait_for
    let events := dictUpdate events r.2
    let st := worker.flush r.1
    processLoop wait_for rest st events

/-- `MultiDeviceProcessor.process`: fan out over the subprocessors with
`events = {}` initially; the method's own `is_blocking` parameter is not
forwarded. -/
def MultiDeviceProcessor.process (mdp : MultiDeviceProcessor) (st : CLState)
    (_is_blocking : Bool) (wait_for : WaitFor) : CLState × EventMap :=
  processLoop wait_for mdp.subprocessors st []

/-- `MultiDeviceProcessor.flush`: flush every subprocessor. -/
def MultiDeviceProcessor.flush (mdp : MultiDeviceProcessor) (st : CLState) : CLState :=
  mdp.subprocessors.foldl (fun st worker => worker.flush st) st

/-- `MultiDeviceProcessor.finish`: finish every subprocessor. -/
def MultiDeviceProcessor.finish (mdp : MultiDeviceProcessor) (st : CLState) : CLState :=
  mdp.subprocessors.foldl (fun st worker => worker.finish st) st

/-- The launches recorded in a driver state, in issue order. -/
def launchesOf (st : CLState) : List Launch :=
  st.ops.filterMap fun op =>
    match op with
    | CLOp.launch l => some l
    | _ => none

/-- Whether an operation is a host-side blocking wait (`event.wait()`). -/
def CLOp.isHostWait : CLOp → Bool
  | CLOp.hostWait _ => true
  | _ => false

/-- The workgroup sizes of the subprocessors of a construction result
(empty on a construction error). -/
def workgroupSizesOf (r : Except ConstructionError MultiDeviceProcessor) : List Nat :=
  match r with
  | Except.ok mdp => mdp.subprocessors.map (fun pb => pb.workgroup_size)
  | Except.error _ => []

/-! ### Concrete test devices, platforms, environments and kernels -/

/-- A double-capable GPU device with a working context. -/
def devGPU : CLDevice := { id := 0, devType := CLDeviceType.GPU, supportsDouble := true, contextConstructible := true }

/-- A double-capable CPU device with a working context. -/
def devCPU : CLDevice := { id := 1, devType := CLDeviceType.CPU, supportsDouble := true, contextConstructible := true }

/-- A double-capable GPU device whose context construction raises. -/
def devBadCtx : CLDevice := { id := 2, devType := CLDeviceType.GPU, supportsDouble := true, contextConstructible := false }

/-- A GPU device without double-precision support. -/
def devNoDouble : CLDevice := { id := 3, devType := CLDeviceType.GPU, supportsDouble := false, contextConstructible := true }

/-- A platform with one GPU and one CPU device. -/
def platformA : CLPlatform := { id := 0, devices := [devGPU, devCPU] }

/-- A platform whose only device supports double but fails context
construction: it has a candidate yet no eligible device. -/
def platformBad : CLPlatform := { id := 1, devices := [devBadCtx] }

/-- A platform with only a CPU device. -/
def platformCPUOnly : CLPlatform := { id := 2, devices := [devCPU] }

/-- A platform whose first two devices are ineligible (no double support,
then failing context construction) and whose third device is eligible. -/
def platformMix : CLPlatform := { id := 3, devices := [devNoDouble, devBadCtx, devGPU] }

/-- The GPU environment on `platformA`. -/
def envA : CLEnvironment := { platform := platformA, device := devGPU, compile_flags := [] }

/-- The CPU environment on `platformA`. -/
def envB : CLEnvironment := { platform := platformA, device := devCPU, compile_flags := [] }

/-- A compiled kernel whose preferred workgroup-size multiple is 32 on
every device. -/
def kernelA : Kernel := { get_work_group_info := fun _ => 32 }

/-- A kernel-data value with one launch input and no loading event. -/
def dataA : KernelData :=
  { get_scalar_arg_dtypes := ["float"]
    get_kernel_inputs := fun _ _ _ _ _ => [(7, none)] }

/-- A kernels mapping holding `kernelA` for every environment. -/
def kernelsAll : CLEnvironment → Option Kernel := fun _ => some kernelA

/-- A kernels mapping holding a kernel only for `envA`. -/
def kernelsOnlyA : CLEnvironment → Option Kernel :=
  fun env => if env = envA then some kernelA else none

/-- A load balancer assigning the whole range to the first environment. -/
def lbOne : LoadBalancer := { get_division := fun _ nmr_instances => [(0, nmr_instances)] }

/-- A load balancer assigning batch `[0, 3)` to the first environment and
the empty batch `[3, 3)` to the second. -/
def lbSplit : LoadBalancer := { get_division := fun _ _ => [(0, 3), (3, 3)] }

/-- The initial driver state: empty trace, first event serial 0. -/
def st0 : CLState := { ops := [], nextEvent := 0 }

/-- The per-batch processor used in the concrete traces below: `kernelA`
over `envA` with batch `[0, 8)` and workgroup size 1. -/
def pbC2 : ProcessBatch := ProcessBatch.construct kernelA [dataA] envA (0, 8) 1

/-- A multi-device processor holding `pbC2` as its only subprocessor. -/
def mdpC2 : MultiDeviceProcessor :=
  { subprocessors := [pbC2], kernel_data := [dataA], cl_environments := [envA] }

/-- The launch `pbC2` issues from the initial driver state: batch `[0, 8)`
at workgroup size 1 gives global size 8, local size 1, the single launch
input of `dataA`, an empty wait-list, and completion event 0. -/
def launchC2 : Launch :=
  { env := envA, global_size := 8, local_size := 1, kernel_inputs := [7],
    wait_for := [], event := 0 }

/-- The processor built for `nmr_instances = 8` without local reduction. -/
def mdp8 : MultiDeviceProcessor :=
  match MultiDeviceProcessor.construct kernelsAll [dataA] [envA] lbOne 8 false none with
  | Except.ok mdp => mdp
  | Except.error _ => { subprocessors := [], kernel_data := [], cl_environments := [] }

/-- The processor built for `nmr_instances = 10` with local reduction and
explicit `local_size = 64`. -/
def mdp640 : MultiDeviceProcessor :=
  match MultiDeviceProcessor.construct kernelsAll [dataA] [envA] lbOne 10 true (some 64) with
  | Except.ok mdp => mdp
  | Except.error _ => { subprocessors := [], kernel_data := [], cl_environments := [] }

/-- The processor built over `[envA, envB]` where the balancer gives
`envA` the batch `[0, 3)` and `envB` the empty batch `[3, 3)`. -/
def mdp7 : MultiDeviceProcessor :=
  match MultiDeviceProcessor.construct kernelsAll [dataA] [envA, envB] lbSplit 3
      false none with
  | Except.ok mdp => mdp
  | Except.error _ => { subprocessors := [], kernel_data := [], cl_environments := [] }

/-- The workgroup-size policy as the constructor implements it, stated as
a standalone reference function: with `use_local_reduction`, a truthy
(non-`None`, non-zero) explicit `local_size` wins, otherwise the kernel's
preferred workgroup-size multiple for the device; without
`use_local_reduction` the workgroup size is 1 and any explicit
`local_size` is ignored. -/
def workgroupSizeSpec (use_local_reduction : Bool) (local_size : Option Nat)
    (preferred : Nat) : Nat :=
  if use_local_reduction then
    match local_size with
    | some (n + 1) => n + 1
    | _ => preferred
  else 1

/-! ### Helper lemmas -/

/-- Everything the single-device scan loop guarantees about a successful
result: the environment wraps the scanned platform and flags, and its
device is a double-capable, context-constructible member of the scanned
list. -/
theorem scanDevices_ok_mem {platform : CLPlatform} {compile_flags : List String}
    {devs : List CLDevice} {envs : List CLEnvironment}
    (h : scanDevices platform compile_flags devs = Except.ok envs) :
    ∀ env ∈ envs, env.platform = platform ∧ env.compile_flags = compile_flags ∧
      device_supports_double env.device = true ∧
      env.device.contextConstructible = true ∧ env.device ∈ devs := by
  induction devs with
  | nil => simp [scanDevices] at h
  | cons dev rest ih =>
    by_cases hd : device_supports_double dev = true
    · simp only [scanDevices, hd, if_true] at h
      by_cases hc : dev.contextConstructible = true
      · simp only [CLEnvironment.construct, hc, if_true] at h
        cases h
        intro env henv
        simp only [List.mem_singleton] at henv
        subst henv
        exact ⟨rfl, rfl, hd, hc, List.mem_cons_self _ _⟩
      · rw [CLEnvironment.construct, if_neg hc] at h
        intro env henv
        obtain ⟨h1, h2, h3, h4, h5⟩ := ih h env henv
        exact ⟨h1, h2, h3, h4, List.mem_cons_of_mem _ h5⟩
    · rw [scanDevices, if_neg (by simpa using hd)] at h
      intro env henv
      obtain ⟨h1, h2, h3, h4, h5⟩ := ih h env henv
      exact ⟨h1, h2, h3, h4, List.mem_cons_of_mem _ h5⟩

/-- The type-filtered device list is always drawn from the platform's
device list. -/
theorem get_devices_subset (p : CLPlatform) (t : CLDeviceType) :
    ∀ d ∈ p.get_devices t, d ∈ p.devices := by
  intro d hd
  cases t <;> simp only [CLPlatform.get_devices] at hd <;>
    first
      | exact hd
      | exact (List.mem_filter.mp hd).1

/-- Everything membership in an `all_devices` result guarantees: the
environment wraps one of the scanned platforms and the given flags, and
its device is a double-capable, context-constructible member of that
platform's device list. -/
theorem all_devices_mem {all_platforms : List CLPlatform}
    {cl_device_type : Option CLDeviceType} {platform : Option CLPlatform}
    {compile_flags : List String} {env : CLEnvironment}
    (h : env ∈ all_devices all_platforms cl_device_type platform compile_flags) :
    ∃ pl ∈ selectedPlatforms all_platforms platform,
      env.platform = pl ∧ env.compile_flags = compile_flags ∧
      env.device ∈ pl.devices ∧
      device_supports_double env.device = true ∧
      env.device.contextConstructible = true := by
  simp only [all_devices, List.mem_flatMap, List.mem_filterMap] at h
  obtain ⟨pl, hpl, dev, hdevmem, hdev⟩ := h
  by_cases hd : device_supports_double dev = true
  · rw [if_pos hd] at hdev
    simp only [CLEnvironment.construct] at hdev
    by_cases hc : dev.contextConstructible = true
    · rw [if_pos hc] at hdev
      cases hdev
      refine ⟨pl, hpl, rfl, rfl, ?_, hd, hc⟩
      rcases cl_device_type with _ | t
      · exact hdevmem
      · exact get_devices_subset pl t dev hdevmem
    · rw [if_neg hc] at hdev
      cases hdev
  · rw [if_neg hd] at hdev
    cases hdev

/-- The single-device scan skips every ineligible device (no double
support, or context construction failing) and picks the first eligible
one. -/
theorem scanDevices_skip {platform : CLPlatform} {compile_flags : List String}
    {d : CLDevice} (post : List CLDevice) :
    ∀ pre : List CLDevice,
    (∀ d2 ∈ pre, ¬(device_supports_double d2 = true ∧ d2.contextConstructible = true)) →
    device_supports_double d = true → d.contextConstructible = true →
    scanDevices platform compile_flags (pre ++ d :: post) =
      Except.ok [{ platform := platform, device := d, compile_flags := compile_flags }] := by
  intro pre
  induction pre with
  | nil =>
    intro _ hd hc
    simp [scanDevices, hd, CLEnvironment.construct, hc]
  | cons d2 rest ih =>
    intro hpre hd hc
    have h2 := hpre d2 (List.mem_cons_self _ _)
    by_cases hd2 : device_supports_double d2 = true
    · have hc2 : ¬(d2.contextConstructible = true) := fun hcc => h2 ⟨hd2, hcc⟩
      simp only [List.cons_append, scanDevices, hd2, if_true,
        CLEnvironment.construct, if_neg hc2]
      exact ih (fun d3 hd3 => hpre d3 (List.mem_cons_of_mem _ hd3)) hd hc
    · simp only [List.cons_append, scanDevices, if_neg hd2]
      exact ih (fun d3 hd3 => hpre d3 (List.mem_cons_of_mem _ hd3)) hd hc

/-- The single-device scan over a list with no eligible device ends in the
no-suitable-device error. -/
theorem scanDevices_none {platform : CLPlatform} {compile_flags : List String} :
    ∀ devs : List CLDevice,
    (∀ d ∈ devs, ¬(device_supports_double d = true ∧ d.contextConstructible = true)) →
    scanDevices platform compile_flags devs =
      Except.error DiscoveryError.noSuitableDevice := by
  intro devs
  induction devs with
  | nil => intro _; rfl
  | cons d rest ih =>
    intro hall
    have hd := hall d (List.mem_cons_self _ _)
    by_cases hdd : device_supports_double d = true
    · have hc : ¬(d.contextConstructible = true) := fun hcc => hd ⟨hdd, hcc⟩
      simp only [scanDevices, hdd, if_true, CLEnvironment.construct, if_neg hc]
      exact ih (fun d3 hd3 => hall d3 (List.mem_cons_of_mem _ hd3))
    · simp only [scanDevices, if_neg hdd]
      exact ih (fun d3 hd3 => hall d3 (List.mem_cons_of_mem _ hd3))

/-- The per-batch launch fully characterized: `ProcessBatch.process`
appends exactly one launch (followed by a host wait only when blocking),
increments the event serial, and returns the single-entry event map. -/
theorem process_trace (pb : ProcessBatch) (st : CLState) (b : Bool) (wf : WaitFor) :
    (pb.process st b wf).1.ops =
      st.ops ++ [CLOp.launch
        { env := pb.cl_environment
          global_size := (pb.batch_range.2 - pb.batch_range.1) * pb.workgroup_size
          local_size := pb.workgroup_size
          kernel_inputs := (flatten_list (pb.kernel_data.map fun data =>
            data.get_kernel_inputs pb.cl_environment pb.workgroup_size pb.batch_range
              false wf)).map Prod.fst
          wait_for := (flatten_list (pb.kernel_data.map fun data =>
            data.get_kernel_inputs pb.cl_environment pb.workgroup_size pb.batch_range
              false wf)).filterMap Prod.snd
          event := st.nextEvent }]
        ++ (if b then [CLOp.hostWait st.nextEvent] else []) ∧
    (pb.process st b wf).1.nextEvent = st.nextEvent + 1 ∧
    (pb.process st b wf).2 = [(pb.cl_environment, st.nextEvent)] := by
  cases b <;> simp [ProcessBatch.process]

/-! ### Claims -/

/-- C8: each of the three memory-flag selectors yields the corresponding
access flag combined with `COPY_HOST_PTR` on a GPU device and with
`USE_HOST_PTR` on every non-GPU device, and the selected flags depend only
on whether the device is a GPU. -/
theorem C8_mem_flag_policy : ∀ env : CLEnvironment,
    (env.is_gpu = true →
      env.get_read_only_cl_mem_flags = mem_READ_ONLY ||| mem_COPY_HOST_PTR ∧
      env.get_write_only_cl_mem_flags = mem_WRITE_ONLY ||| mem_COPY_HOST_PTR ∧
      env.get_read_write_cl_mem_flags = mem_READ_WRITE ||| mem_COPY_HOST_PTR) ∧
    (env.is_gpu = false →
      env.get_read_only_cl_mem_flags = mem_READ_ONLY ||| mem_USE_HOST_PTR ∧
      env.get_write_only_cl_mem_flags = mem_WRITE_ONLY ||| mem_USE_HOST_PTR ∧
      env.get_read_write_cl_mem_flags = mem_READ_WRITE ||| mem_USE_HOST_PTR) ∧
    (∀ env2 : CLEnvironment, env.is_gpu = env2.is_gpu →
      env.get_read_only_cl_mem_flags = env2.get_read_only_cl_mem_flags ∧
      env.get_write_only_cl_mem_flags = env2.get_write_only_cl_mem_flags ∧
      env.get_read_write_cl_mem_flags = env2.get_read_write_cl_mem_flags) := by
  intro env
  refine ⟨fun h => ?_, fun h => ?_, fun env2 h => ?_⟩
  · simp [CLEnvironment.get_read_only_cl_mem_flags,
      CLEnvironment.get_write_only_cl_mem_flags,
      CLEnvironment.get_read_write_cl_mem_flags, h]
  · simp [CLEnvironment.get_read_only_cl_mem_flags,
      CLEnvironment.get_write_only_cl_mem_flags,
      CLEnvironment.get_read_write_cl_mem_flags, h]
  · simp [CLEnvironment.get_read_only_cl_mem_flags,
      CLEnvironment.get_write_only_cl_mem_flags,
      CLEnvironment.get_read_write_cl_mem_flags, ← h]

/-- Witness for C8 at the concrete GPU environment `envA` and CPU
environment `envB`. -/
theorem C8_mem_flag_policy_witness :
    envA.is_gpu = true ∧
    envA.get_read_only_cl_mem_flags = mem_READ_ONLY ||| mem_COPY_HOST_PTR ∧
    envB.is_gpu = false ∧
    envB.get_read_only_cl_mem_flags = mem_READ_ONLY ||| mem_USE_HOST_PTR :=
  ⟨by decide, ((C8_mem_flag_policy envA).1 (by decide)).1,
   by decide, ((C8_mem_flag_policy envB).2.1 (by decide)).1⟩

/-- C5: every environment returned by either discovery call supports
double precision: `single_device` and `all_devices` both skip every
device lacking double-precision support. -/
theorem C5_double_precision_filter :
    ∀ (all_platforms all_platforms2 : List CLPlatform) (t : CLDeviceType)
      (t2 : Option CLDeviceType) (p p2 : Option CLPlatform)
      (cf cf2 : List String) (fb : Bool) (envs : List CLEnvironment),
    (single_device all_platforms t p cf fb = Except.ok envs →
      ∀ env ∈ envs, env.supports_double = true) ∧
    (∀ env ∈ all_devices all_platforms2 t2 p2 cf2, env.supports_double = true) := by
  intro all_platforms all_platforms2 t t2 p p2 cf cf2 fb envs
  constructor
  · intro h env henv
    unfold single_device at h
    rcases hp : (match p with
                 | some p => some p
                 | none => all_platforms.head?) with _ | platform
    · rw [hp] at h; cases h
    · rw [hp] at h
      simp only at h
      by_cases he : (platform.get_devices t).isEmpty
      · rw [if_pos he] at h
        by_cases hf : fb
        · rw [if_pos hf] at h
          exact (scanDevices_ok_mem h env henv).2.2.1
        · rw [if_neg hf] at h; cases h
      · rw [if_neg he] at h
        exact (scanDevices_ok_mem h env henv).2.2.1
  · intro env henv
    obtain ⟨pl, _, _, _, _, hd, _⟩ := all_devices_mem henv
    exact hd

/-- Witness for C5 at a concrete single-device discovery over `platformA`
that returns the GPU environment `envA`. -/
theorem C5_double_precision_filter_witness :
    envA.supports_double = true ∧ envB.supports_double = true :=
  ⟨(C5_double_precision_filter [platformA] [platformA] CLDeviceType.GPU none none none
      [] [] false [envA]).1 rfl envA (by decide),
   (C5_double_precision_filter [platformA] [platformA] CLDeviceType.GPU none none none
      [] [] false [envA]).2 envB (by decide)⟩

/-- C4 counterexample: `platformBad` carries a double-capable candidate
device whose context construction fails, so the set of eligible devices is
empty; the all-devices discovery call over it returns the empty list
instead of failing (its return type has no error at all), refuting the
claim that every discovery mode fails with the no-suitable-device error in
this situation. -/
theorem C4_counterexample :
    platformBad.devices = [devBadCtx] ∧
    device_supports_double devBadCtx = true ∧
    devBadCtx.contextConstructible = false ∧
    all_devices [platformBad] none none [] = [] := by
  refine ⟨rfl, rfl, rfl, rfl⟩

/-- C4 as amended: in both discovery modes a device that fails context
construction (or lacks double support) is skipped and discovery continues
with the remaining candidates; when no eligible device exists,
`single_device` fails with the no-suitable-device error, while
`all_devices` never fails — it returns an empty list. -/
theorem C4_skip_and_continue :
    (∀ (all_platforms : List CLPlatform) (t : CLDeviceType) (p : CLPlatform)
       (cf : List String) (fb : Bool) (pre post : List CLDevice) (d : CLDevice),
      p.get_devices t = pre ++ d :: post →
      (∀ d2 ∈ pre, ¬(device_supports_double d2 = true ∧ d2.contextConstructible = true)) →
      device_supports_double d = true → d.contextConstructible = true →
      single_device all_platforms t (some p) cf fb =
        Except.ok [{ platform := p, device := d, compile_flags := cf }]) ∧
    (∀ (all_platforms : List CLPlatform) (t : CLDeviceType) (p : CLPlatform)
       (cf : List String) (fb : Bool),
      p.get_devices t ≠ [] →
      (∀ d ∈ p.get_devices t,
        ¬(device_supports_double d = true ∧ d.contextConstructible = true)) →
      single_device all_platforms t (some p) cf fb =
        Except.error DiscoveryError.noSuitableDevice) ∧
    (∀ (all_platforms : List CLPlatform) (t : Option CLDeviceType)
       (p : Option CLPlatform) (cf : List String) (env : CLEnvironment),
      env ∈ all_devices all_platforms t p cf →
      device_supports_double env.device = true ∧
        env.device.contextConstructible = true) ∧
    (∀ (all_platforms : List CLPlatform) (t : Option CLDeviceType)
       (p : Option CLPlatform) (cf : List String),
      (∀ pl ∈ selectedPlatforms all_platforms p,
        ∀ d ∈ pl.devices,
          ¬(device_supports_double d = true ∧ d.contextConstructible = true)) →
      all_devices all_platforms t p cf = []) := by
  refine ⟨?_, ?_, ?_, ?_⟩
  · intro all_platforms t p cf fb pre post d hdevs hpre hd hc
    have hne : ¬(p.get_devices t).isEmpty = true := by
      rw [hdevs]
      simp
    simp only [single_device, if_neg hne]
    rw [hdevs]
    exact scanDevices_skip post pre hpre hd hc
  · intro all_platforms t p cf fb hne hall
    have hne2 : ¬(p.get_devices t).isEmpty = true := by
      simpa [List.isEmpty_iff] using hne
    simp only [single_device, if_neg hne2]
    exact scanDevices_none _ hall
  · intro all_platforms t p cf env henv
    obtain ⟨pl, _, _, _, _, hd, hc⟩ := all_devices_mem henv
    exact ⟨hd, hc⟩
  · intro all_platforms t p cf hall
    rw [List.eq_nil_iff_forall_not_mem]
    intro env henv
    obtain ⟨pl, hpl, _, _, hmem, hd, hc⟩ := all_devices_mem henv
    exact hall pl hpl env.device hmem ⟨hd, hc⟩

/-- Witness for the amended C4 on concrete platforms: `platformMix`'s scan
skips an ineligible pair of devices and returns its third device,
`platformBad` yields the no-suitable-device error in single mode and the
empty list in all-devices mode. -/
theorem C4_skip_and_continue_witness :
    (single_device [platformMix] CLDeviceType.ALL (some platformMix) [] false =
      Except.ok [{ platform := platformMix, device := devGPU, compile_flags := [] }]) ∧
    (single_device [platformBad] CLDeviceType.ALL (some platformBad) [] false =
      Except.error DiscoveryError.noSuitableDevice) ∧
    (all_devices [platformBad] none none [] = []) :=
  ⟨C4_skip_and_continue.1 [platformMix] CLDeviceType.ALL platformMix [] false
      [devNoDouble, devBadCtx] [] devGPU rfl (by decide) (by decide) (by decide),
   C4_skip_and_continue.2.1 [platformBad] CLDeviceType.ALL platformBad [] false
      (by decide) (by decide),
   C4_skip_and_continue.2.2.2 [platformBad] none none [] (by decide)⟩

/-- C9: `single_device` for a device class with no matching device on the
target platform fails immediately with the no-matching-device error when
the fallback flag is unset, and with the flag set behaves exactly as a
discovery over every device of the platform (the `ALL` device-type
query). -/
theorem C9_fallback_or_no_matching :
    ∀ (all_platforms : List CLPlatform) (t : CLDeviceType) (p : CLPlatform)
      (cf : List String),
    p.get_devices t = [] →
    (single_device all_platforms t (some p) cf false =
      Except.error DiscoveryError.noMatchingDevice) ∧
    (p.devices ≠ [] →
      single_device all_platforms t (some p) cf true =
        single_device all_platforms CLDeviceType.ALL (some p) cf true) ∧
    (p.devices = [] →
      single_device all_platforms t (some p) cf true =
        Except.error DiscoveryError.noSuitableDevice) := by
  intro all_platforms t p cf h
  refine ⟨?_, ?_, ?_⟩
  · simp [single_device, h]
  · intro hne
    have hall : p.get_devices CLDeviceType.ALL = p.devices := rfl
    simp [single_device, h, hall, List.isEmpty_iff, hne]
  · intro hdev
    simp [single_device, h, hdev, scanDevices]

/-- Witness for C9 on the CPU-only platform with a GPU request. -/
theorem C9_fallback_or_no_matching_witness :
    (single_device [platformCPUOnly] CLDeviceType.GPU (some platformCPUOnly) [] false =
      Except.error DiscoveryError.noMatchingDevice) ∧
    (single_device [platformCPUOnly] CLDeviceType.GPU (some platformCPUOnly) [] true =
      single_device [platformCPUOnly] CLDeviceType.ALL (some platformCPUOnly) [] true) :=
  ⟨(C9_fallback_or_no_matching [platformCPUOnly] CLDeviceType.GPU platformCPUOnly []
      (by decide)).1,
   (C9_fallback_or_no_matching [platformCPUOnly] CLDeviceType.GPU platformCPUOnly []
      (by decide)).2.1 (by decide)⟩

/-- C3: every batch-processor launch uses global size
`(batchEnd - batchStart) * workgroupSize` and local size `workgroupSize`;
concretely, the full pipeline with `nmr_instances = 8` and no local
reduction produces one launch of global size 8 and local size 1, and with
local reduction and explicit `local_size = 64` over `nmr_instances = 10`
one launch of global size 640 and local size 64. -/
theorem C3_work_sizes :
    (∀ (pb : ProcessBatch) (st : CLState) (b : Bool) (wf : WaitFor),
      ∃ l : Launch,
        launchesOf (pb.process st b wf).1 = launchesOf st ++ [l] ∧
        l.global_size = (pb.batch_range.2 - pb.batch_range.1) * pb.workgroup_size ∧
        l.local_size = pb.workgroup_size) ∧
    ((launchesOf (mdp8.process st0 false none).1).map
      (fun l => (l.global_size, l.local_size)) = [(8, 1)]) ∧
    ((launchesOf (mdp640.process st0 false none).1).map
      (fun l => (l.global_size, l.local_size)) = [(640, 64)]) := by
  refine ⟨?_, rfl, rfl⟩
  intro pb st b wf
  obtain ⟨h1, -, -⟩ := process_trace pb st b wf
  refine ⟨{ env := pb.cl_environment
            global_size := (pb.batch_range.2 - pb.batch_range.1) * pb.workgroup_size
            local_size := pb.workgroup_size
            kernel_inputs := (flatten_list (pb.kernel_data.map fun data =>
              data.get_kernel_inputs pb.cl_environment pb.workgroup_size pb.batch_range
                false wf)).map Prod.fst
            wait_for := (flatten_list (pb.kernel_data.map fun data =>
              data.get_kernel_inputs pb.cl_environment pb.workgroup_size pb.batch_range
                false wf)).filterMap Prod.snd
            event := st.nextEvent }, ?_, rfl, rfl⟩
  simp only [launchesOf, h1]
  cases b <;> simp

/-- C6: the kernel launch of a single `ProcessBatch.process` call carries
as its device wait-list exactly the non-`None` data-ready events produced
by materializing every kernel-data item for this environment, workgroup
size and batch range; the launch is first in the appended trace (any host
wait comes only after it, and a non-blocking call performs no host wait at
all), so the ordering is enforced by the device wait-list, not by
host-side blocking. -/
theorem C6_wait_list :
    ∀ (pb : ProcessBatch) (st : CLState) (b : Bool) (wf : WaitFor),
    ∃ l : Launch,
      (pb.process st b wf).1.ops =
        st.ops ++ [CLOp.launch l] ++ (if b then [CLOp.hostWait l.event] else []) ∧
      l.wait_for = (flatten_list (pb.kernel_data.map fun data =>
        data.get_kernel_inputs pb.cl_environment pb.workgroup_size pb.batch_range
          false wf)).filterMap Prod.snd ∧
      (pb.process st false wf).1.ops.filter CLOp.isHostWait =
        st.ops.filter CLOp.isHostWait := by
  intro pb st b wf
  refine ⟨_, (process_trace pb st b wf).1, rfl, ?_⟩
  rw [(process_trace pb st false wf).1]
  simp [CLOp.isHostWait]

/-- C2 (evaluation at the failing input): fanning out through
`MultiDeviceProcessor.process` with `is_blocking = true` issues the launch
and the flush but performs no host wait at all — the worker is invoked
with `is_blocking` left at its `False` default — whereas the constituent
`ProcessBatch.process` called directly with `is_blocking = true` does
host-wait on its completion event. -/
theorem C2_is_blocking_dropped :
    (mdpC2.process st0 true none).1.ops = [CLOp.launch launchC2, CLOp.flushQueue envA] ∧
    ((mdpC2.process st0 true none).1.ops.filter CLOp.isHostWait = []) ∧
    (pbC2.process st0 true none).1.ops = [CLOp.launch launchC2, CLOp.hostWait 0] := by
  refine ⟨rfl, rfl, rfl⟩

/-- Every subprocessor produced by the constructor loop carries the
workgroup size given by the reference policy applied to its environment's
kernel. -/
theorem constructLoop_workgroup {kernels : CLEnvironment → Option Kernel}
    {kernel_data : List KernelData} {batches : List (Nat × Nat)}
    {ulr : Bool} {ls : Option Nat} :
    ∀ (ind : Nat) (envs : List CLEnvironment) (subs : List ProcessBatch),
    constructLoop kernels kernel_data batches ulr ls ind envs = Except.ok subs →
    ∀ pb ∈ subs, ∀ k, kernels pb.cl_environment = some k →
      pb.workgroup_size =
        workgroupSizeSpec ulr ls (k.get_work_group_info pb.cl_environment.device) := by
  intro ind envs
  induction envs generalizing ind with
  | nil =>
    intro subs h pb hpb
    rw [constructLoop] at h
    cases h
    simp at hpb
  | cons env0 rest ih =>
    intro subs h pb hpb k hk
    rw [constructLoop] at h
    split at h
    · exact Except.noConfusion h
    · next kernel hker =>
      split at h
      · exact Except.noConfusion h
      · next batch hbatch =>
        split at h
        · exact Except.noConfusion h
        · next subs2 hrec =>
          split at h
          · cases h
            rcases List.mem_cons.mp hpb with hpb0 | hpbr
            · subst hpb0
              have hkk : kernel = k := by
                have h2 := hk.symm.trans hker
                exact (Option.some.inj h2).symm
              subst hkk
              rfl
            · exact ih (ind + 1) subs2 hrec pb hpbr k hk
          · cases h
            exact ih (ind + 1) _ hrec pb hpb k hk

/-- C1 counterexample: constructing with an explicit `local_size = 64` but
`use_local_reduction = False` yields a subprocessor whose workgroup size
is 1, not the explicit 64 the claim requires. -/
theorem C1_counterexample :
    workgroupSizesOf (MultiDeviceProcessor.construct kernelsAll [dataA] [envA] lbOne
      10 false (some 64)) = [1] ∧ (1 : Nat) ≠ 64 := by
  exact ⟨rfl, by decide⟩

/-- C1 as amended: the workgroup size is chosen per environment as —
when `useLocalReduction` is set, the explicit truthy `localSize` if given,
otherwise the kernel's preferred workgroup-size multiple for the device;
when `useLocalReduction` is unset, 1, with any explicit `localSize`
ignored. -/
theorem C1_workgroup_choice :
    ∀ (kernels : CLEnvironment → Option Kernel) (kernel_data : List KernelData)
      (cl_environments : List CLEnvironment) (lb : LoadBalancer) (n : Nat)
      (ulr : Bool) (ls : Option Nat) (mdp : MultiDeviceProcessor),
    MultiDeviceProcessor.construct kernels kernel_data cl_environments lb n ulr ls =
      Except.ok mdp →
    ∀ pb ∈ mdp.subprocessors, ∀ k, kernels pb.cl_environment = some k →
      pb.workgroup_size =
        workgroupSizeSpec ulr ls (k.get_work_group_info pb.cl_environment.device) := by
  intro kernels kernel_data cl_environments lb n ulr ls mdp h
  rw [MultiDeviceProcessor.construct] at h
  split at h
  · exact Except.noConfusion h
  · next subs hloop =>
    cases h
    exact constructLoop_workgroup 0 cl_environments subs hloop

/-- Witness for the amended C1: with local reduction and no explicit local
size, the constructed subprocessor's workgroup size is the kernel's
preferred multiple, as the reference policy states. -/
theorem C1_workgroup_choice_witness :
    workgroupSizesOf (MultiDeviceProcessor.construct kernelsAll [dataA] [envA] lbOne
      10 true none) =
      [workgroupSizeSpec true none (kernelA.get_work_group_info envA.device)] := by
  have h : MultiDeviceProcessor.construct kernelsAll [dataA] [envA] lbOne 10 true none =
      Except.ok { subprocessors := [ProcessBatch.construct kernelA [dataA] envA (0, 10) 32]
                  kernel_data := [dataA]
                  cl_environments := [envA] } := rfl
  have hm := C1_workgroup_choice kernelsAll [dataA] [envA] lbOne 10 true none _ h
    (ProcessBatch.construct kernelA [dataA] envA (0, 10) 32)
    (List.mem_singleton.mpr rfl) kernelA rfl
  rw [h]
  simp only [workgroupSizesOf, List.map]
  rw [hm]
  rfl

/-- C10: constructing a `MultiDeviceProcessor` looks up the kernels
mapping for every listed environment — including one whose batch is empty
— so construction fails whenever the mapping lacks an entry for any
listed environment. -/
theorem C10_kernels_required :
    ∀ (kernels : CLEnvironment → Option Kernel) (kernel_data : List KernelData)
      (cl_environments : List CLEnvironment) (lb : LoadBalancer) (n : Nat)
      (ulr : Bool) (ls : Option Nat) (env : CLEnvironment),
    env ∈ cl_environments → kernels env = none →
    (MultiDeviceProcessor.construct kernels kernel_data cl_environments lb n ulr
      ls).toOption = none := by
  intro kernels kernel_data cl_environments lb n ulr ls env hmem hnone
  suffices hloop : ∀ (ind : Nat) (envs : List CLEnvironment), env ∈ envs →
      (constructLoop kernels kernel_data (lb.get_division cl_environments n) ulr ls
        ind envs).toOption = none by
    rw [MultiDeviceProcessor.construct]
    split
    · rfl
    · next subs hrec =>
      have h2 := hloop 0 cl_environments hmem
      rw [hrec] at h2
      simp [Except.toOption] at h2
  intro ind envs
  induction envs generalizing ind with
  | nil => intro h; simp at h
  | cons env0 rest ih =>
    intro h
    rw [constructLoop]
    rcases List.mem_cons.mp h with h0 | hr
    · subst h0
      rw [hnone]
      rfl
    · cases hker : kernels env0 with
      | none => rfl
      | some kernel =>
        cases hbatch : (lb.get_division cl_environments n)[ind]? with
        | none => rfl
        | some batch =>
          have hrec := ih (ind + 1) hr
          cases hrecv : constructLoop kernels kernel_data
              (lb.get_division cl_environments n) ulr ls (ind + 1) rest with
          | error e => rfl
          | ok subs =>
            rw [hrecv] at hrec
            simp [Except.toOption] at hrec

/-- Witness for C10: `envB`'s batch from the balancer is the empty
`[3, 3)`, yet because the kernels mapping lacks an entry for `envB`,
construction fails. -/
theorem C10_kernels_required_witness :
    (MultiDeviceProcessor.construct kernelsOnlyA [dataA] [envA, envB] lbSplit 20
      false none).toOption = none :=
  C10_kernels_required kernelsOnlyA [dataA] [envA, envB] lbSplit 20 false none envB
    (by decide) rfl

/-- The environments of the subprocessors produced by the constructor loop
are exactly the environments paired with a non-empty batch, in order. -/
theorem constructLoop_envs {kernels : CLEnvironment → Option Kernel}
    {kernel_data : List KernelData} {batches : List (Nat × Nat)}
    {ulr : Bool} {ls : Option Nat} :
    ∀ (ind : Nat) (envs : List CLEnvironment) (subs : List ProcessBatch),
    constructLoop kernels kernel_data batches ulr ls ind envs = Except.ok subs →
    subs.map (fun pb => pb.cl_environment) =
      ((envs.zip (batches.drop ind)).filter
        (fun p => p.2.2 - p.2.1 > 0)).map Prod.fst := by
  intro ind envs
  induction envs generalizing ind with
  | nil =>
    intro subs h
    rw [constructLoop] at h
    cases h
    simp
  | cons env0 rest ih =>
    intro subs h
    rw [constructLoop] at h
    split at h
    · exact Except.noConfusion h
    · next kernel hker =>
      split at h
      · exact Except.noConfusion h
      · next batch hbatch =>
        split at h
        · exact Except.noConfusion h
        · next subs2 hrec =>
          obtain ⟨hlt, hgetl⟩ := List.getElem?_eq_some.mp hbatch
          have hdrop : batches.drop ind = batch :: batches.drop (ind + 1) := by
            rw [List.drop_eq_getElem_cons hlt, hgetl]
          rw [hdrop]
          by_cases hb : batch.2 - batch.1 > 0
          · rw [if_pos hb] at h
            cases h
            simp only [List.map_cons, List.zip_cons_cons, List.filter_cons,
              decide_eq_true_eq, hb, if_true]
            exact congrArg (List.cons env0) (ih (ind + 1) subs2 hrec)
          · rw [if_neg hb] at h
            cases h
            simp only [List.zip_cons_cons, List.filter_cons, decide_eq_true_eq,
              hb, if_false]
            exact ih (ind + 1) _ hrec

/-- Key membership after a Python-dict single-key assignment. -/
theorem keys_dictInsert (m : EventMap) (k : CLEnvironment) (v : Event)
    (e : CLEnvironment) :
    e ∈ (dictInsert m k v).map Prod.fst ↔ (e ∈ m.map Prod.fst ∨ e = k) := by
  unfold dictInsert
  by_cases hany : m.any (fun kv => kv.1 == k) = true
  · rw [if_pos hany]
    have hkeys : (m.map (fun kv => if kv.1 == k then (kv.1, v) else kv)).map Prod.fst =
        m.map Prod.fst := by
      rw [List.map_map]
      apply List.map_congr_left
      intro kv _
      by_cases hh : kv.1 = k <;> simp [hh]
    rw [hkeys]
    obtain ⟨kv, hkvm, hkvk⟩ := List.any_eq_true.mp hany
    have hkmem : k ∈ m.map Prod.fst := by
      have hkeq : kv.1 = k := by simpa using hkvk
      exact hkeq ▸ List.mem_map_of_mem Prod.fst hkvm
    constructor
    · exact Or.inl
    · rintro (he | he)
      · exact he
      · exact he ▸ hkmem
  · rw [if_neg hany]
    simp

/-- Key membership of the event map accumulated by the fan-out loop of
`MultiDeviceProcessor.process`: the initial keys plus one key per
worker's environment. -/
theorem keys_processLoop (wf : WaitFor) :
    ∀ (workers : List ProcessBatch) (st : CLState) (events : EventMap)
      (e : CLEnvironment),
    e ∈ (processLoop wf workers st events).2.map Prod.fst ↔
      (e ∈ events.map Prod.fst ∨ ∃ w ∈ workers, e = w.cl_environment) := by
  intro workers
  induction workers with
  | nil =>
    intro st events e
    simp [processLoop]
  | cons w rest ih =>
    intro st events e
    rw [processLoop]
    rw [ih]
    have h2 : dictUpdate events (w.process st false wf).2 =
        dictInsert events w.cl_environment st.nextEvent := by
      rw [(process_trace w st false wf).2.2]
      rfl
    rw [h2, keys_dictInsert]
    simp only [List.mem_cons, exists_eq_or_imp]
    tauto

/-- C7: a successful construction creates subprocessors exactly for the
environments whose batch from the load balancer is non-empty (in list
order), and the event map returned by `process` has keys exactly those
environments. -/
theorem C7_empty_batch_skipped :
    ∀ (kernels : CLEnvironment → Option Kernel) (kernel_data : List KernelData)
      (cl_environments : List CLEnvironment) (lb : LoadBalancer) (n : Nat)
      (ulr : Bool) (ls : Option Nat) (mdp : MultiDeviceProcessor)
      (st : CLState) (b : Bool) (wf : WaitFor),
    MultiDeviceProcessor.construct kernels kernel_data cl_environments lb n ulr ls =
      Except.ok mdp →
    (mdp.subprocessors.map (fun pb => pb.cl_environment) =
      ((cl_environments.zip (lb.get_division cl_environments n)).filter
        (fun p => p.2.2 - p.2.1 > 0)).map Prod.fst) ∧
    (∀ e, e ∈ (mdp.process st b wf).2.map Prod.fst ↔
      e ∈ ((cl_environments.zip (lb.get_division cl_environments n)).filter
        (fun p => p.2.2 - p.2.1 > 0)).map Prod.fst) := by
  intro kernels kernel_data cl_environments lb n ulr ls mdp st b wf h
  rw [MultiDeviceProcessor.construct] at h
  split at h
  · exact Except.noConfusion h
  · next subs hloop =>
    cases h
    have h1 := constructLoop_envs 0 cl_environments subs hloop
    rw [List.drop_zero] at h1
    refine ⟨h1, fun e => ?_⟩
    have h2 := keys_processLoop wf subs st [] e
    calc e ∈ (MultiDeviceProcessor.process
            { subprocessors := subs, kernel_data := kernel_data,
              cl_environments := cl_environments } st b wf).2.map Prod.fst
        ↔ ∃ w ∈ subs, e = w.cl_environment := by simpa using h2
      _ ↔ e ∈ subs.map (fun pb => pb.cl_environment) := by
            simp [List.mem_map, eq_comm]
      _ ↔ _ := by rw [h1]

/-- Witness for C7: with batches `[0, 3)` and `[3, 3)` over
`[envA, envB]`, only `envA` gets a subprocessor, and the event-map key
test agrees with the non-empty-batch environment list. -/
theorem C7_empty_batch_skipped_witness :
    (mdp7.subprocessors.map (fun pb => pb.cl_environment) =
      (([envA, envB].zip (lbSplit.get_division [envA, envB] 3)).filter
        (fun p => p.2.2 - p.2.1 > 0)).map Prod.fst) ∧
    (envA ∈ (mdp7.process st0 false none).2.map Prod.fst ↔
      envA ∈ (([envA, envB].zip (lbSplit.get_division [envA, envB] 3)).filter
        (fun p => p.2.2 - p.2.1 > 0)).map Prod.fst) := by
  have h : MultiDeviceProcessor.construct kernelsAll [dataA] [envA, envB] lbSplit 3
      false none = Except.ok mdp7 := rfl
  exact ⟨(C7_empty_batch_skipped kernelsAll [dataA] [envA, envB] lbSplit 3 false none
      mdp7 st0 false none h).1,
    (C7_empty_batch_skipped kernelsAll [dataA] [envA, envB] lbSplit 3 false none
      mdp7 st0 false none h).2 envA⟩

end MOT
